import Mathlib

set_option maxRecDepth 8000

/-!
Shallow embedding of the tutorial-video-generator pipeline.

Sources embedded here:
- `src/src/script_generator.py` (templates, duration rescaling, AI fallback,
  text cleaning, visual descriptions, cache key, cache freshness check,
  script assembly, validation),
- `src/src/voice_generator.py` (`_prepare_text`),
- `src/src/video_assembler.py` (`create_video` timing and title lookup),
- `src/main.py` (duration clamping, pipeline sequencing, temp cleanup).

Python machine integers are modelled as `Nat`/`Int`; Python float arithmetic
(the duration ratio, the `2.5 words/second` factor, the `0.7` shortness
threshold, audio durations) is modelled as exact rational arithmetic over `ℚ`.
Python strings are modelled as Lean `String` / `List Char`; `str.lower` is
modelled by `String.toLower` (ASCII case folding, which covers every cased
character these programs compare).
-/

/-- Python-style list prefix test (`needle` is a prefix of the second list). -/
def prefixCheck : List Char → List Char → Bool
  | [], _ => true
  | _ :: _, [] => false
  | a :: as, b :: bs => a == b && prefixCheck as bs

/-- Python `needle in haystack` substring test over character lists. -/
def occursIn (pat : List Char) : List Char → Bool
  | [] => pat.isEmpty
  | b :: bs => prefixCheck pat (b :: bs) || occursIn pat bs

/-- Python `pattern in s` substring containment on strings. -/
def strContains (s pat : String) : Bool :=
  occursIn pat.data s.data

/-- Python `str.strip()`: drop leading and trailing whitespace. -/
def pyStrip (l : List Char) : List Char :=
  ((l.dropWhile Char.isWhitespace).reverse.dropWhile Char.isWhitespace).reverse

/-- Python regex `\w` for the character ranges this program manipulates:
ASCII word characters plus the Latin-1 Supplement / Latin Extended-A letters
(accented vowels, `ñ`, …), excluding `×` and `÷` which are not word chars. -/
def pyWordChar (c : Char) : Bool :=
  c.isAlphanum || c == '_' ||
    (0xC0 ≤ c.toNat && c.toNat ≤ 0x17F && c.toNat ≠ 0xD7 && c.toNat ≠ 0xF7)

/-- Character class kept by `re.sub(r'[^\w\s\.\,\!\?\:\;]', '', text)`
in `ScriptGenerator._clean_generated_text`. -/
def keepChar (c : Char) : Bool :=
  pyWordChar c || c.isWhitespace ||
    c == '.' || c == ',' || c == '!' || c == '?' || c == ':' || c == ';'

/-- Python `str.split()` with no argument: split on whitespace runs,
dropping empty words. -/
def pySplit (l : List Char) : List (List Char) :=
  (l.splitOnP Char.isWhitespace).filter (fun w => !w.isEmpty)

/-- Python `int()` applied to a (here: exact rational) number:
truncation toward zero. -/
def pyInt (q : ℚ) : ℤ :=
  if 0 ≤ q then q.floor else -((-q).floor)

/-- One entry of a `ScriptTemplate.TEMPLATES[...]["structure"]` list:
a section kind, its nominal duration in seconds, and its purpose. -/
structure TemplateSection where
  type : String
  duration : ℕ
  purpose : String
deriving Repr, DecidableEq

/-- `ScriptTemplate.TEMPLATES["educational"]["structure"]`. -/
def educational_structure : List TemplateSection :=
  [⟨"hook", 3, "Enganchar audiencia"⟩,
   ⟨"intro", 5, "Presentar tema"⟩,
   ⟨"main_content", 20, "Contenido principal"⟩,
   ⟨"example", 7, "Ejemplo práctico"⟩,
   ⟨"recap", 3, "Resumen clave"⟩,
   ⟨"call_to_action", 2, "CTA final"⟩]

/-- `ScriptTemplate.TEMPLATES["casual"]["structure"]`. -/
def casual_structure : List TemplateSection :=
  [⟨"hook", 4, "Saludo casual"⟩,
   ⟨"intro", 6, "¿Qué vamos a ver?"⟩,
   ⟨"main_content", 18, "Contenido paso a paso"⟩,
   ⟨"tips", 5, "Tips extras"⟩,
   ⟨"outro", 7, "Despedida y CTA"⟩]

/-- `ScriptTemplate.TEMPLATES["professional"]["structure"]`. -/
def professional_structure : List TemplateSection :=
  [⟨"intro", 3, "Presentación directa"⟩,
   ⟨"overview", 4, "Vista general"⟩,
   ⟨"main_content", 22, "Desarrollo técnico"⟩,
   ⟨"best_practices", 6, "Mejores prácticas"⟩,
   ⟨"conclusion", 5, "Conclusiones"⟩]

/-- `ScriptTemplate.get_template(style)["structure"]`:
dictionary lookup defaulting to the educational template. -/
def get_template_structure (style : String) : List TemplateSection :=
  if style = "educational" then educational_structure
  else if style = "casual" then casual_structure
  else if style = "professional" then professional_structure
  else educational_structure

/-- `ScriptGenerator._adjust_section_durations`: rescale every nominal
duration by `total_duration / original_total` (float division modelled on
`ℚ`), truncate with `int(...)` and floor the result at 2 seconds. -/
def adjust_section_durations (structure0 : List TemplateSection)
    (total_duration : ℕ) : List TemplateSection :=
  let original_total : ℕ := (structure0.map TemplateSection.duration).sum
  let scale : ℚ := (total_duration : ℚ) / (original_total : ℚ)
  structure0.map (fun s =>
    { s with duration := (max 2 (pyInt ((s.duration : ℚ) * scale))).toNat })

/-- `FreeAIProvider._fallback_generation`: scan the prompt (lowercased) for
the four template keywords in dictionary insertion order and return the
first matching canned sentence, else the generic default sentence. -/
def fallback_generation (prompt : String) : String :=
  let p := prompt.toLower
  if strContains p "introducir" then
    "Hoy vamos a aprender sobre un tema muy interesante que te ayudará en tu día a día."
  else if strContains p "explicar" then
    "Este concepto es fundamental y te voy a explicar paso a paso cómo funciona."
  else if strContains p "ejemplo" then
    "Veamos un ejemplo práctico para que quede más claro."
  else if strContains p "conclusión" then
    "En resumen, hemos visto los puntos más importantes sobre este tema."
  else
    "Aquí tienes información importante sobre el tema que estamos tratando."

/-- Outcome of one call to the external text-generation collaborator
(the local transformers model wrapped by `FreeAIProvider`):
it is either not loaded (`self.model is None`), raises, or returns text. -/
inductive AIOutcome where
  | unavailable
  | failure
  | success (text : String)
deriving Repr

/-- `FreeAIProvider.generate_text`: if the model is missing or its call
raises, fall back to `_fallback_generation`; otherwise strip the prompt
out of the generated text when it reappears. -/
def generate_text (outcome : String → AIOutcome) (prompt : String) : String :=
  match outcome prompt with
  | .unavailable => fallback_generation prompt
  | .failure => fallback_generation prompt
  | .success t =>
      if strContains t prompt then (t.replace prompt "").trim else t

/-- Whether a character list ends with terminal punctuation,
Python `text.endswith(('.', '!', '?'))`. -/
def endsWithTerminal (l : List Char) : Bool :=
  match l.getLast? with
  | some c => c == '.' || c == '!' || c == '?'
  | none => false

/-- `ScriptGenerator._clean_generated_text`: strip characters outside the
conservative class, truncate to `int(duration * 2.5)` words or append the
fixed elaboration sentence when shorter than 70% of that target, ensure
terminal punctuation, and strip surrounding whitespace. -/
def clean_generated_text (text : String) (target_duration : ℕ) : String :=
  let chars := text.data.filter keepChar
  let words := pySplit chars
  let target_words : ℕ := (target_duration * 5) / 2
  let t1 : List Char :=
    if words.length > target_words then
      List.intercalate [' '] (words.take target_words)
    else if (words.length : ℚ) < (target_words : ℚ) * (7 / 10) then
      chars ++ " Esto es fundamental para entender el concepto correctamente.".data
    else chars
  let t2 := if endsWithTerminal t1 then t1 else t1 ++ ['.']
  ⟨pyStrip t2⟩

/-- Keyword scan used by `ScriptGenerator._detect_topic_category`. -/
def keyword_match (topic_lower : String) (keywords : List String) : Bool :=
  keywords.any (fun k => strContains topic_lower k)

/-- `ScriptGenerator._detect_topic_category` over the default knowledge
base: first category (in insertion order) with a keyword occurring in the
lowercased topic, defaulting to `"general"`. -/
def detect_topic_category (topic : String) : String :=
  let t := topic.toLower
  if keyword_match t ["código", "programación", "desarrollo", "software"] then "programming"
  else if keyword_match t ["diseño", "UI", "UX", "gráfico"] then "design"
  else if keyword_match t ["negocio", "empresa", "marketing", "ventas"] then "business"
  else "general"

/-- Per-kind prompt dictionary of `ScriptGenerator._generate_section_content`
(`.get` with the generic default prompt). -/
def section_prompt (section_type topic : String) (duration : ℕ) : String :=
  if section_type = "hook" then
    "Crea un gancho atractivo de " ++ toString duration ++ " segundos sobre " ++ topic ++
      ". Debe ser impactante y generar curiosidad."
  else if section_type = "intro" then
    "Escribe una introducción de " ++ toString duration ++ " segundos que presente el tema " ++
      topic ++ " de forma clara."
  else if section_type = "main_content" then
    "Desarrolla el contenido principal sobre " ++ topic ++ " en " ++ toString duration ++
      " segundos. Incluye información valiosa y práctica."
  else if section_type = "example" then
    "Proporciona un ejemplo concreto y práctico sobre " ++ topic ++ " que dure " ++
      toString duration ++ " segundos."
  else if section_type = "recap" then
    "Crea un resumen de " ++ toString duration ++ " segundos de los puntos clave sobre " ++
      topic ++ "."
  else if section_type = "call_to_action" then
    "Escribe un call-to-action de " ++ toString duration ++ " segundos que motive a la audiencia."
  else if section_type = "tips" then
    "Comparte " ++ toString duration ++ " segundos de tips útiles sobre " ++ topic ++ "."
  else if section_type = "outro" then
    "Crea una despedida de " ++ toString duration ++ " segundos que sea memorable y amigable."
  else
    "Escribe contenido sobre " ++ topic ++ " para " ++ section_type

/-- Per-kind phrase dictionary of `ScriptGenerator._generate_visual_description`. -/
def visual_template (section_type topic : String) : String :=
  if section_type = "hook" then
    "Imagen llamativa relacionada con " ++ topic ++ ", colores vibrantes, estilo moderno"
  else if section_type = "intro" then
    "Imagen profesional sobre " ++ topic ++ ", limpia y clara"
  else if section_type = "main_content" then
    "Diagrama o infografía explicando " ++ topic ++ ", estilo educativo"
  else if section_type = "example" then
    "Ejemplo visual práctico de " ++ topic ++ ", realista y detallado"
  else if section_type = "recap" then
    "Resumen visual de conceptos clave de " ++ topic ++ ", organizado"
  else if section_type = "call_to_action" then
    "Imagen motivacional relacionada con " ++ topic ++ ", inspiradora"
  else
    "Imagen sobre " ++ topic

/-- Category-specific suffix dictionary of
`ScriptGenerator._generate_visual_description` (defaulting to `"general"`). -/
def category_style_suffix (category : String) : String :=
  if category = "programming" then ", con elementos de código y tecnología"
  else if category = "design" then ", con elementos gráficos y creativos"
  else if category = "business" then ", con elementos profesionales y corporativos"
  else ", estilo limpio y profesional"

/-- `ScriptGenerator._generate_visual_description`. -/
def generate_visual_description (topic section_type category : String) : String :=
  visual_template section_type topic ++ category_style_suffix category

/-- Timing dictionary attached to each generated section. -/
structure TimingInfo where
  duration : ℕ
  words : ℕ
  target_words : ℕ
deriving Repr, DecidableEq

/-- Content triple returned by `ScriptGenerator._generate_section_content`. -/
structure SectionContent where
  text : String
  visual : String
  timing : TimingInfo
deriving Repr, DecidableEq

/-- `ScriptGenerator._generate_section_content` (its non-raising path, which
is the only reachable one in this pure model: `generate_text` handles
collaborator failure internally). -/
def generate_section_content (outcome : String → AIOutcome) (topic : String)
    (sec : TemplateSection) (category : String) : SectionContent :=
  let prompt := section_prompt sec.type topic sec.duration
  let generated := generate_text outcome prompt
  let cleaned := clean_generated_text generated sec.duration
  { text := cleaned,
    visual := generate_visual_description topic sec.type category,
    timing := { duration := sec.duration,
                words := (pySplit cleaned.data).length,
                target_words := (sec.duration * 5) / 2 } }

/-- Per-kind fallback sentence dictionary of
`ScriptGenerator._generate_fallback_content`. -/
def fallback_section_text (topic section_type : String) : String :=
  if section_type = "hook" then
    "¿Sabías que " ++ topic ++ " puede cambiar completamente tu perspectiva? Quédate para descubrirlo."
  else if section_type = "intro" then
    "Hoy vamos a explorar " ++ topic ++ " de una manera práctica y fácil de entender."
  else if section_type = "main_content" then
    "El " ++ topic ++ " es un concepto fundamental que todos deberíamos conocer. Te explico los puntos más importantes."
  else if section_type = "example" then
    "Veamos un ejemplo real de cómo aplicar " ++ topic ++ " en la práctica diaria."
  else if section_type = "recap" then
    "Para resumir, hemos visto que " ++ topic ++ " es importante por estas razones clave."
  else if section_type = "call_to_action" then
    "Si te gustó este contenido sobre " ++ topic ++ ", no olvides seguirme para más tips como este."
  else
    "Contenido interesante sobre " ++ topic ++ "."

/-- `ScriptGenerator._generate_fallback_content`. -/
def generate_fallback_content (topic section_type : String) (duration : ℕ) :
    SectionContent :=
  let text := fallback_section_text topic section_type
  { text := text,
    visual := "Imagen profesional sobre " ++ topic,
    timing := { duration := duration,
                words := (pySplit text.data).length,
                target_words := (duration * 5) / 2 } }

/-- One entry of the generated `script_data["sections"]` list. -/
structure SectionOut where
  type : String
  duration : ℕ
  content : String
  visual_cues : String
  timing : TimingInfo
deriving Repr, DecidableEq

/-- The generated `script_data["metadata"]` dictionary. -/
structure ScriptMetadata where
  word_count : ℕ
  estimated_reading_time : ℕ
  category : String
  template_used : String
deriving Repr, DecidableEq

/-- The `script_data` dictionary compiled by `ScriptGenerator.generate_script`. -/
structure ScriptData where
  topic : String
  style : String
  duration : ℕ
  created_at : String
  sections : List SectionOut
  scenes : List String
  narration : String
  metadata : ScriptMetadata
deriving Repr, DecidableEq

/-- `ScriptGenerator.generate_script` on a cache miss: select the template,
detect the category, rescale section durations, generate the per-section
content, and compile the script dictionary. `outcome` models the external
text collaborator; `now` models `datetime.now().isoformat()`. Every
generated content dictionary is truthy, so every section is appended. -/
def generate_script (outcome : String → AIOutcome) (now topic style : String)
    (target_duration : ℕ) : ScriptData :=
  let template := get_template_structure style
  let category := detect_topic_category topic
  let sections := adjust_section_durations template target_duration
  let script_sections : List SectionOut := sections.map (fun s =>
    let c := generate_section_content outcome topic s category
    { type := s.type, duration := s.duration, content := c.text,
      visual_cues := c.visual, timing := c.timing })
  let scenes := sections.map (fun s =>
    (generate_section_content outcome topic s category).visual)
  let narration := String.intercalate " " (sections.map (fun s =>
    (generate_section_content outcome topic s category).text))
  { topic := topic, style := style, duration := target_duration,
    created_at := now, sections := script_sections, scenes := scenes,
    narration := narration,
    metadata := { word_count := (pySplit narration.data).length,
                  estimated_reading_time := target_duration,
                  category := category, template_used := style } }

/-- `ScriptGenerator._generate_cache_key`: the string hashed by MD5,
`f"{topic}_{style}_{duration}"`. -/
def cache_key_material (topic style : String) (duration : ℕ) : String :=
  topic ++ "_" ++ style ++ "_" ++ toString duration

/-- `ScriptGenerator._generate_cache_key`: MD5 (an arbitrary but fixed
digest function, passed as a parameter) of the key material. -/
def generate_cache_key (md5 : String → String) (topic style : String)
    (duration : ℕ) : String :=
  md5 (cache_key_material topic style duration)

/-- A cache file written by `ScriptGenerator._save_to_cache`:
`created_at` is modelled as a Unix timestamp in seconds. -/
structure CacheEntry where
  created_at : ℤ
  script_data : ScriptData
deriving Repr, DecidableEq

/-- Python `timedelta.days`: floor division of the timespan in seconds
by 86400 (floor division rounds toward negative infinity). -/
def pyTimedeltaDays (seconds : ℤ) : ℤ :=
  Int.fdiv seconds 86400

/-- `ScriptGenerator._load_from_cache`: a missing cache file is a miss;
an existing entry is a hit iff `(now - created_at).days < 7`. -/
def load_from_cache (now_ts : ℤ) (entry : Option CacheEntry) :
    Option ScriptData :=
  match entry with
  | none => none
  | some e =>
      if pyTimedeltaDays (now_ts - e.created_at) < 7 then some e.script_data
      else none

/-- Cache gate at the top of `ScriptGenerator.generate_script`:
a fresh cached script is returned unchanged, otherwise generation runs. -/
def generate_script_cached (outcome : String → AIOutcome) (now_ts : ℤ)
    (now topic style : String) (target_duration : ℕ)
    (entry : Option CacheEntry) : ScriptData :=
  match load_from_cache now_ts entry with
  | some s => s
  | none => generate_script outcome now topic style target_duration

/-- Python value universe for the `script_data` dictionary as passed
between pipeline stages. -/
inductive PyVal where
  | pstr : String → PyVal
  | pnat : ℕ → PyVal
  | plist : List PyVal → PyVal
  | pdict : List (String × PyVal) → PyVal
deriving Repr

/-- Dictionary view of one section, as built inside
`ScriptGenerator.generate_script`. -/
def SectionOut.toPy (s : SectionOut) : PyVal :=
  .pdict [("type", .pstr s.type), ("duration", .pnat s.duration),
          ("content", .pstr s.content), ("visual_cues", .pstr s.visual_cues),
          ("timing", .pdict [("duration", .pnat s.timing.duration),
                             ("words", .pnat s.timing.words),
                             ("target_words", .pnat s.timing.target_words)])]

/-- Dictionary view of `script_data` with exactly the keys written by
`ScriptGenerator.generate_script` (lines 324-338 of the source). -/
def ScriptData.toPy (s : ScriptData) : List (String × PyVal) :=
  [("topic", .pstr s.topic), ("style", .pstr s.style),
   ("duration", .pnat s.duration), ("created_at", .pstr s.created_at),
   ("sections", .plist (s.sections.map SectionOut.toPy)),
   ("scenes", .plist (s.scenes.map PyVal.pstr)),
   ("narration", .pstr s.narration),
   ("metadata", .pdict [("word_count", .pnat s.metadata.word_count),
                        ("estimated_reading_time", .pnat s.metadata.estimated_reading_time),
                        ("category", .pstr s.metadata.category),
                        ("template_used", .pstr s.metadata.template_used)])]

/-- Required fields checked by `ScriptGenerator.validate_script`. -/
def required_fields : List String :=
  ["topic", "style", "sections", "narration", "scenes"]

/-- `ScriptGenerator.validate_script`: all required fields present and the
sections list truthy (non-empty). -/
def validate_script (d : List (String × PyVal)) : Bool :=
  (required_fields.all (fun k => (d.lookup k).isSome)) &&
    (match d.lookup "sections" with
     | some (PyVal.plist l) => !l.isEmpty
     | _ => false)

/-- `VoiceGenerator._prepare_text`, replacement step: Python
`text.replace(c, c + ' ')` for a single character `c` inserts a space
after every occurrence of `c`. -/
def insertPauseAfter (c : Char) : List Char → List Char
  | [] => []
  | x :: xs =>
      if x = c then x :: ' ' :: insertPauseAfter c xs
      else x :: insertPauseAfter c xs

/-- `VoiceGenerator._prepare_text` before the length cap: strip, then add a
pause space after every `'.'`, `','` and `':'` (in that order). -/
def paced_text (text : String) : List Char :=
  insertPauseAfter ':' (insertPauseAfter ',' (insertPauseAfter '.' (pyStrip text.data)))

/-- `VoiceGenerator._prepare_text`: texts longer than 500 characters are
hard-truncated to their first 500 characters plus an ellipsis marker. -/
def prepare_text (text : String) : String :=
  let t := paced_text text
  if t.length > 500 then ⟨t.take 500 ++ "...".data⟩ else ⟨t⟩

/-- Every occurrence of `c` in the list is immediately followed by a
space character. -/
inductive Spaced (c : Char) : List Char → Prop
  | nil : Spaced c []
  | cons_other {x : Char} {l : List Char} :
      x ≠ c → Spaced c l → Spaced c (x :: l)
  | cons_pause {l : List Char} :
      Spaced c l → Spaced c (c :: ' ' :: l)

/-- `VideoAssembler.create_video` timing: the per-image display duration,
`total_duration / len(image_paths)` (audio duration is the timing
authority; float arithmetic modelled on `ℚ`). -/
def clip_duration_per_image (audio_duration : ℚ) (image_count : ℕ) : ℚ :=
  audio_duration / image_count

/-- Display durations assigned to the image clips by
`VideoAssembler.create_video`: the same equal split for every image. -/
def clip_durations (audio_duration : ℚ) (image_paths : List String) : List ℚ :=
  image_paths.map (fun _ => clip_duration_per_image audio_duration image_paths.length)

/-- Result of a successful `VideoAssembler.create_video` call. -/
structure AssembledVideo where
  clips : List (String × ℚ)
  audio_duration : ℚ
  title : PyVal
  output_path : String
deriving Repr

/-- `VideoAssembler.create_video`: dividing by a zero image count raises;
otherwise the image clips are built with the equal-split duration, then
the title overlay reads `script_data['title']`, raising `KeyError` when
the key is absent; only then is the video exported to
`output/videos/{output_name}_tutorial.mp4`. -/
def create_video (audio_duration : ℚ) (image_paths : List String)
    (script_data : List (String × PyVal)) (output_name : String) :
    Except String AssembledVideo :=
  if image_paths.length = 0 then
    .error "ZeroDivisionError: division by zero"
  else
    match script_data.lookup "title" with
    | none => .error "KeyError: title"
    | some t =>
        .ok { clips := image_paths.zip (clip_durations audio_duration image_paths),
              audio_duration := audio_duration, title := t,
              output_path := "output/videos/" ++ output_name ++ "_tutorial.mp4" }

/-- Default `max_video_duration` from `Config.load_config` in `main.py`. -/
def default_max_video_duration : ℕ := 60

/-- Duration clamping at the top of `TutorialVideoGenerator.generate_video`:
a requested duration above the configured maximum is silently replaced by
the maximum. -/
def effective_duration (max_dur requested : ℕ) : ℕ :=
  if requested > max_dur then max_dur else requested

/-- Output path written by `ImageGenerator.generate_image`. -/
def image_output_path (output_name : String) : String :=
  "output/images/" ++ output_name ++ ".png"

/-- Output path written by `VoiceGenerator.generate_voice`. -/
def audio_output_path (output_name : String) : String :=
  "output/audio/" ++ output_name ++ "_voice.wav"

/-- Output path written by `VideoAssembler.create_video`. -/
def video_output_path (output_name : String) : String :=
  "output/videos/" ++ output_name ++ "_tutorial.mp4"

/-- Whether a path lies in the temp directory cleared by
`TutorialVideoGenerator.cleanup_temp_files` (`temp/` by default config). -/
def is_temp_file (p : String) : Bool :=
  prefixCheck "temp/".data p.data

/-- `TutorialVideoGenerator.cleanup_temp_files` on a flat file-path state:
best-effort deletion of the files inside the temp directory; every other
file survives. -/
def cleanup_temp_files (files : List String) : List String :=
  files.filter (fun p => !is_temp_file p)

/-- Modelled from the spec: the image stage glue (`generate_images` in
`main.py` calls a module method missing from `src/`); per spec §4.3 it
makes one `ImageGenerator.generate_image` call per section, in order,
with no automatic retry, and each written image is numbered by section
ordinal. `fail_at = some k` makes the external image collaborator raise on
the `k`-th call. Returns the files written so far and the stage result. -/
def run_images_from (fail_at : Option ℕ) (idx : ℕ) :
    List String → List String × Except String (List String)
  | [] => ([], .ok [])
  | _scene :: rest =>
      if fail_at = some idx then ([], .error "Error al generar imagen")
      else
        let p := image_output_path ("scene_" ++ toString idx)
        let r := run_images_from fail_at (idx + 1) rest
        (p :: r.1, match r.2 with
                   | .ok l => .ok (p :: l)
                   | .error e => .error e)

/-- The image stage over all scenes of the script. -/
def run_images (fail_at : Option ℕ) (scenes : List String) :
    List String × Except String (List String) :=
  run_images_from fail_at 0 scenes

/-- `TutorialVideoGenerator.generate_video` pipeline sequencing, on a flat
file-path state: clamp the duration, plan the script, run the image stage,
then the audio stage, then assembly. Any stage failure aborts the run,
triggers `cleanup_temp_files` and returns `none` instead of a video path.
The audio and video stage glue (`audio_generator` / `video_editor` modules
are missing from `src/`) is modelled from the spec §4.2/§4.4: on success the
audio stage writes one WAV under `output/audio` (path from
`VoiceGenerator.generate_voice`) and assembly writes one MP4 under
`output/videos`. -/
def generate_video_run (outcome : String → AIOutcome) (now : String)
    (max_dur : ℕ) (image_fail_at : Option ℕ) (audio_fails : Bool)
    (topic style : String) (duration : ℕ) (files0 : List String) :
    List String × Option String :=
  let d := effective_duration max_dur duration
  let script := generate_script outcome now topic style d
  let r := run_images image_fail_at script.scenes
  match r.2 with
  | .error _ => (cleanup_temp_files (files0 ++ r.1), none)
  | .ok _ =>
      let files1 := files0 ++ r.1
      if audio_fails then (cleanup_temp_files files1, none)
      else
        let files2 := files1 ++ [audio_output_path "narration"]
        let vpath := video_output_path topic
        (files2 ++ [vpath], some vpath)

lemma get_template_structure_ne_nil (style : String) :
    get_template_structure style ≠ [] := by
  unfold get_template_structure
  split_ifs <;>
    simp [educational_structure, casual_structure, professional_structure]

lemma generate_script_sections (outcome : String → AIOutcome)
    (now topic style : String) (T : ℕ) :
    (generate_script outcome now topic style T).sections =
      (adjust_section_durations (get_template_structure style) T).map (fun s =>
        let c := generate_section_content outcome topic s
          (detect_topic_category topic)
        { type := s.type, duration := s.duration, content := c.text,
          visual_cues := c.visual, timing := c.timing }) := rfl

lemma adjust_length (structure0 : List TemplateSection) (T : ℕ) :
    (adjust_section_durations structure0 T).length = structure0.length := by
  simp [adjust_section_durations]

/-- C9: the MD5 fingerprint is computed from the string
`"{topic}_{style}_{duration}"`, which identifies the distinct requests
(topic `"a_b"`, style `"c"`) and (topic `"a"`, style `"b_c"`) at equal
duration, so their fingerprints agree for every digest function and one
request can be served the other's cached script. -/
theorem C9_fingerprint_collision :
    (("a_b", "c") ≠ ("a", "b_c")) ∧
    cache_key_material "a_b" "c" 30 = cache_key_material "a" "b_c" 30 ∧
    ∀ md5 : String → String,
      generate_cache_key md5 "a_b" "c" 30 = generate_cache_key md5 "a" "b_c" 30 := by
  exact ⟨by decide, by decide, fun md5 => congrArg md5 (by decide)⟩

/-- C10: a requested duration above the configured maximum (60 seconds by
default) is silently replaced by the maximum before planning: the whole
pipeline run behaves exactly as if the maximum had been requested, and no
rejection occurs. -/
theorem C10_duration_clamp (d : ℕ) (h : default_max_video_duration < d) :
    effective_duration default_max_video_duration d = default_max_video_duration ∧
    ∀ (outcome : String → AIOutcome) (now : String) (image_fail_at : Option ℕ)
      (audio_fails : Bool) (topic style : String) (files0 : List String),
      generate_video_run outcome now default_max_video_duration image_fail_at
          audio_fails topic style d files0 =
        generate_video_run outcome now default_max_video_duration image_fail_at
          audio_fails topic style default_max_video_duration files0 := by
  have he : effective_duration default_max_video_duration d =
      default_max_video_duration := by
    simp [effective_duration, h]
  refine ⟨he, ?_⟩
  intro outcome now image_fail_at audio_fails topic style files0
  unfold generate_video_run
  rw [he]
  have : effective_duration default_max_video_duration default_max_video_duration =
      default_max_video_duration := by simp [effective_duration]
  rw [this]

theorem C10_duration_clamp_witness :
    default_max_video_duration < 100 ∧
    effective_duration default_max_video_duration 100 = default_max_video_duration ∧
    generate_video_run (fun _ => AIOutcome.unavailable) "now"
        default_max_video_duration none false "gatos" "educational" 100 [] =
      generate_video_run (fun _ => AIOutcome.unavailable) "now"
        default_max_video_duration none false "gatos" "educational"
        default_max_video_duration [] := by
  have h : default_max_video_duration < 100 := by decide
  exact ⟨h, (C10_duration_clamp 100 h).1,
    (C10_duration_clamp 100 h).2 (fun _ => AIOutcome.unavailable) "now" none
      false "gatos" "educational" []⟩

/-- C7: a cache entry strictly older than 7 days (`timedelta.days ≥ 7`) is
a miss even if otherwise valid, while an entry within the 7-day window is
returned unchanged as a hit, in which case the cache gate of
`generate_script` skips generation entirely. -/
theorem C7_cache_staleness (now_ts created : ℤ) (sd : ScriptData)
    (outcome : String → AIOutcome) (now topic style : String) (T : ℕ) :
    (7 * 86400 < now_ts - created →
      load_from_cache now_ts (some ⟨created, sd⟩) = none) ∧
    (0 ≤ now_ts - created → now_ts - created < 7 * 86400 →
      load_from_cache now_ts (some ⟨created, sd⟩) = some sd ∧
      generate_script_cached outcome now_ts now topic style T
        (some ⟨created, sd⟩) = sd) := by
  constructor
  · intro h
    have hnn : (0 : ℤ) ≤ now_ts - created := by omega
    have hdays : ¬ pyTimedeltaDays (now_ts - created) < 7 := by
      unfold pyTimedeltaDays
      rw [Int.fdiv_eq_ediv _ (by norm_num)]
      omega
    simp [load_from_cache, hdays]
  · intro h0 h7
    have hdays : pyTimedeltaDays (now_ts - created) < 7 := by
      unfold pyTimedeltaDays
      rw [Int.fdiv_eq_ediv _ (by norm_num)]
      omega
    have hload : load_from_cache now_ts (some ⟨created, sd⟩) = some sd := by
      simp [load_from_cache, hdays]
    exact ⟨hload, by simp [generate_script_cached, hload]⟩

def sample_script : ScriptData :=
  { topic := "t", style := "educational", duration := 10,
    created_at := "2024-01-01T00:00:00", sections := [], scenes := [],
    narration := "",
    metadata := { word_count := 0, estimated_reading_time := 10,
                  category := "general", template_used := "educational" } }

theorem C7_cache_staleness_witness :
    (7 * 86400 < (700000 : ℤ) - 0 ∧
      load_from_cache 700000 (some ⟨0, sample_script⟩) = none) ∧
    ((0 : ℤ) ≤ 600 - 0 ∧ (600 : ℤ) - 0 < 7 * 86400 ∧
      load_from_cache 600 (some ⟨0, sample_script⟩) = some sample_script) := by
  have h1 : (7 : ℤ) * 86400 < 700000 - 0 := by decide
  have h2 : (0 : ℤ) ≤ 600 - 0 := by decide
  have h3 : (600 : ℤ) - 0 < 7 * 86400 := by decide
  exact ⟨⟨h1, (C7_cache_staleness 700000 0 sample_script
      (fun _ => AIOutcome.unavailable) "n" "t" "educational" 10).1 h1⟩,
    ⟨h2, h3, ((C7_cache_staleness 600 0 sample_script
      (fun _ => AIOutcome.unavailable) "n" "t" "educational" 10).2 h2 h3).1⟩⟩

/-- C2: for every non-empty image list, `VideoAssembler.create_video` gives
every image clip the display duration `audio.duration / len(image_paths)`
(an equal split that ignores the per-section allocated durations), so the
concatenated video duration equals the audio duration regardless of the
image count or the section timings. -/
theorem C2_equal_split (audio_dur : ℚ) (image_paths : List String)
    (h : image_paths ≠ []) :
    (∀ q ∈ clip_durations audio_dur image_paths,
        q = audio_dur / image_paths.length) ∧
    (clip_durations audio_dur image_paths).sum = audio_dur := by
  have hn : (image_paths.length : ℚ) ≠ 0 := by
    simpa using fun hh => h (List.length_eq_zero.mp hh)
  constructor
  · intro q hq
    simp [clip_durations, clip_duration_per_image] at hq
    exact hq.2
  · simp only [clip_durations, clip_duration_per_image]
    rw [List.map_const', List.sum_replicate, nsmul_eq_mul]
    field_simp

theorem C2_equal_split_witness :
    (["a.png", "b.png", "c.png", "d.png"] : List String) ≠ [] ∧
    (∀ q ∈ clip_durations 10 ["a.png", "b.png", "c.png", "d.png"],
        q = 10 / (["a.png", "b.png", "c.png", "d.png"] : List String).length) ∧
    (clip_durations 10 ["a.png", "b.png", "c.png", "d.png"]).sum = 10 := by
  have h : (["a.png", "b.png", "c.png", "d.png"] : List String) ≠ [] := by decide
  exact ⟨h, C2_equal_split 10 ["a.png", "b.png", "c.png", "d.png"] h⟩

/-- C3: for any template structure with positive nominal total and any
target duration, the rescaled duration of each section is exactly
`max 2 (int(nominal * T / T_nominal))` — proportional rescaling with
truncation toward zero and a 2-second floor — and the rescaled total is not
corrected back to `T` (for the educational template at `T = 10` the
rescaled sections sum to 15). -/
theorem C3_rescaling (structure0 : List TemplateSection) (T : ℕ)
    (_h : 0 < (structure0.map TemplateSection.duration).sum) :
    ((adjust_section_durations structure0 T).map
        (fun s => (s.duration : ℤ)) =
      structure0.map (fun s =>
        max 2 (pyInt (((s.duration : ℚ) * T) /
          (((structure0.map TemplateSection.duration).sum : ℕ) : ℚ))))) ∧
    ((adjust_section_durations educational_structure 10).map
        TemplateSection.duration).sum = 15 ∧ (15 : ℕ) ≠ 10 := by
  refine ⟨?_, by with_unfolding_all decide, by decide⟩
  unfold adjust_section_durations
  rw [List.map_map]
  refine List.map_congr_left (fun s _ => ?_)
  simp only [Function.comp]
  rw [Int.toNat_of_nonneg (le_trans (by norm_num) (le_max_left 2 _))]
  rw [mul_div_assoc]

theorem C3_rescaling_witness :
    0 < (educational_structure.map TemplateSection.duration).sum ∧
    ((adjust_section_durations educational_structure 30).map
        (fun s => (s.duration : ℤ)) =
      educational_structure.map (fun s =>
        max 2 (pyInt (((s.duration : ℚ) * 30) /
          (((educational_structure.map TemplateSection.duration).sum : ℕ) : ℚ))))) := by
  have h : 0 < (educational_structure.map TemplateSection.duration).sum := by decide
  exact ⟨h, (C3_rescaling educational_structure 30 h).1⟩

/-- C5: every generated script has a non-empty sections list and gives every
section an allocated duration of at least 2 seconds, for every collaborator
behaviour, topic, style and target duration. -/
theorem C5_script_invariant (outcome : String → AIOutcome)
    (now topic style : String) (T : ℕ) :
    (generate_script outcome now topic style T).sections ≠ [] ∧
    ∀ sec ∈ (generate_script outcome now topic style T).sections,
      2 ≤ sec.duration := by
  rw [generate_script_sections]
  constructor
  · simp only [ne_eq, List.map_eq_nil_iff, adjust_section_durations]
    exact get_template_structure_ne_nil style
  · intro sec hsec
    simp only [adjust_section_durations, List.map_map, List.mem_map] at hsec
    obtain ⟨s, _, rfl⟩ := hsec
    exact Int.toNat_le_toNat (le_max_left 2 _)

lemma spaced_insertPauseAfter (c : Char) (l : List Char) :
    Spaced c (insertPauseAfter c l) := by
  induction l with
  | nil => exact Spaced.nil
  | cons x xs ih =>
      by_cases hx : x = c
      · subst hx
        simp only [insertPauseAfter, if_pos]
        exact Spaced.cons_pause ih
      · simp only [insertPauseAfter, if_neg hx]
        exact Spaced.cons_other hx ih

lemma spaced_insertPauseAfter_preserve {c cp : Char} (hcc : cp ≠ c)
    (hc1 : c ≠ ' ') (hc2 : cp ≠ ' ') {l : List Char} (h : Spaced c l) :
    Spaced c (insertPauseAfter cp l) := by
  induction h with
  | nil => exact Spaced.nil
  | @cons_other x l' hx hl ih =>
      simp only [insertPauseAfter]
      by_cases hx' : x = cp
      · rw [if_pos hx']
        exact Spaced.cons_other hx (Spaced.cons_other (Ne.symm hc1) ih)
      · rw [if_neg hx']
        exact Spaced.cons_other hx ih
  | @cons_pause l' hl ih =>
      simp only [insertPauseAfter]
      rw [if_neg (Ne.symm hcc), if_neg (Ne.symm hc2)]
      exact Spaced.cons_pause ih

/-- C6: `VoiceGenerator._prepare_text` trims surrounding whitespace, inserts
a space after every `'.'`, `','` and `':'`, and hard-truncates any processed
text longer than 500 characters to its first 500 characters plus an
ellipsis, so the text handed to the voice collaborator never exceeds
503 characters. -/
theorem C6_prepare_text (text : String) :
    Spaced '.' (paced_text text) ∧ Spaced ',' (paced_text text) ∧
    Spaced ':' (paced_text text) ∧
    (prepare_text text).length ≤ 503 ∧
    prepare_text text =
      (if (paced_text text).length > 500 then
        (⟨(paced_text text).take 500 ++ "...".data⟩ : String)
       else ⟨paced_text text⟩) := by
  refine ⟨?_, ?_, ?_, ?_, rfl⟩
  · unfold paced_text
    exact spaced_insertPauseAfter_preserve (by decide) (by decide) (by decide)
      (spaced_insertPauseAfter_preserve (by decide) (by decide) (by decide)
        (spaced_insertPauseAfter '.' _))
  · unfold paced_text
    exact spaced_insertPauseAfter_preserve (by decide) (by decide) (by decide)
      (spaced_insertPauseAfter ',' _)
  · unfold paced_text
    exact spaced_insertPauseAfter ':' _
  · have heq : prepare_text text =
        (if (paced_text text).length > 500 then
          (⟨(paced_text text).take 500 ++ "...".data⟩ : String)
         else ⟨paced_text text⟩) := rfl
    rw [heq]
    split
    · show ((paced_text text).take 500 ++ "...".data).length ≤ 503
      simp [List.length_append, List.length_take]
    · next h =>
        show (paced_text text).length ≤ 503
        omega

/-- C1 counterexample: with the text collaborator unavailable on every call
(topic `"gatos"`, educational style, 30 seconds), the first generated
section's text is the generic `_fallback_generation` sentence truncated by
`_clean_generated_text`; it does not contain the topic, and it differs from
the per-kind `_generate_fallback_content` sentence. -/
theorem C1_counterexample :
    ((generate_script (fun _ => AIOutcome.unavailable) "2024-01-01T00:00:00"
        "gatos" "educational" 30).sections.map SectionOut.content)[0]? =
      some "Aquí tienes información importante sobre." ∧
    strContains "Aquí tienes información importante sobre." "gatos" = false ∧
    fallback_section_text "gatos" "hook" ≠
      "Aquí tienes información importante sobre." := by
  refine ⟨by with_unfolding_all decide, by decide, by decide⟩

/-- C1 (amended): if the text collaborator is unavailable or raises on
every call, `generate_script` still returns a script that passes
`validate_script` (no failure propagates), but each section's text is the
keyword-selected fixed sentence of `FreeAIProvider._fallback_generation`
post-processed by `_clean_generated_text` — not the per-kind
`_generate_fallback_content` sentence, and it need not contain the topic. -/
theorem C1_fallback_script (outcome : String → AIOutcome)
    (now topic style : String) (T : ℕ)
    (hfail : ∀ p, outcome p = AIOutcome.unavailable ∨
      outcome p = AIOutcome.failure) :
    validate_script
        (ScriptData.toPy (generate_script outcome now topic style T)) = true ∧
    (generate_script outcome now topic style T).sections.map
        SectionOut.content =
      (adjust_section_durations (get_template_structure style) T).map (fun s =>
        clean_generated_text
          (fallback_generation (section_prompt s.type topic s.duration))
          s.duration) := by
  have hgt : ∀ p, generate_text outcome p = fallback_generation p := by
    intro p
    rcases hfail p with h | h <;> simp [generate_text, h]
  constructor
  · have hval : validate_script
        (ScriptData.toPy (generate_script outcome now topic style T)) =
        !((generate_script outcome now topic style T).sections.map
          SectionOut.toPy).isEmpty := rfl
    rw [hval, generate_script_sections]
    cases hb : get_template_structure style with
    | nil => exact absurd hb (get_template_structure_ne_nil style)
    | cons a l => simp [adjust_section_durations, hb]
  · rw [generate_script_sections, List.map_map]
    refine List.map_congr_left (fun s _ => ?_)
    simp only [Function.comp]
    simp [generate_section_content, hgt]

theorem C1_fallback_script_witness :
    (∀ p : String, (fun _ => AIOutcome.unavailable) p = AIOutcome.unavailable ∨
      (fun _ => AIOutcome.unavailable) p = AIOutcome.failure) ∧
    validate_script (ScriptData.toPy (generate_script
      (fun _ => AIOutcome.unavailable) "now" "gatos" "casual" 20)) = true ∧
    (generate_script (fun _ => AIOutcome.unavailable) "now" "gatos" "casual"
        20).sections.map SectionOut.content =
      (adjust_section_durations (get_template_structure "casual") 20).map
        (fun s => clean_generated_text
          (fallback_generation (section_prompt s.type "gatos" s.duration))
          s.duration) := by
  have hfail : ∀ p : String,
      (fun _ => AIOutcome.unavailable) p = AIOutcome.unavailable ∨
      (fun _ => AIOutcome.unavailable) p = AIOutcome.failure :=
    fun _ => Or.inl rfl
  exact ⟨hfail, C1_fallback_script (fun _ => AIOutcome.unavailable) "now"
    "gatos" "casual" 20 hfail⟩

/-- C8: every script produced by `generate_script` carries a `"topic"` key
and no `"title"` key, so `VideoAssembler.create_video` always fails with a
`KeyError` at the title-overlay lookup (before any export), for every
non-empty image list. -/
theorem C8_title_lookup_fails (outcome : String → AIOutcome)
    (now topic style output_name : String) (T : ℕ) (audio_dur : ℚ)
    (image_paths : List String) (h : image_paths ≠ []) :
    create_video audio_dur image_paths
        (ScriptData.toPy (generate_script outcome now topic style T))
        output_name = Except.error "KeyError: title" := by
  have hl : ¬ image_paths.length = 0 := by
    simpa [List.length_eq_zero] using h
  have hlookup : (ScriptData.toPy
      (generate_script outcome now topic style T)).lookup "title" = none := rfl
  simp [create_video, hl, hlookup]

theorem C8_title_lookup_fails_witness :
    (["img.png"] : List String) ≠ [] ∧
    create_video 5 ["img.png"]
        (ScriptData.toPy (generate_script (fun _ => AIOutcome.unavailable)
          "now" "gatos" "educational" 30)) "out" =
      Except.error "KeyError: title" := by
  have h : (["img.png"] : List String) ≠ [] := by decide
  exact ⟨h, C8_title_lookup_fails (fun _ => AIOutcome.unavailable) "now"
    "gatos" "educational" "out" 30 5 ["img.png"] h⟩

lemma is_temp_file_image (s : String) :
    is_temp_file (image_output_path s) = false := rfl

lemma generate_script_scenes_length (outcome : String → AIOutcome)
    (now topic style : String) (T : ℕ) :
    (generate_script outcome now topic style T).scenes.length =
      (get_template_structure style).length := by
  simp [generate_script, adjust_section_durations]

lemma run_images_from_fail (scenes : List String) : ∀ idx k : ℕ, idx ≤ k →
    k - idx < scenes.length →
    run_images_from (some k) idx scenes =
      ((List.range' idx (k - idx)).map
        (fun i => image_output_path ("scene_" ++ toString i)),
       Except.error "Error al generar imagen") := by
  induction scenes with
  | nil =>
      intro idx k _ h2
      simp at h2
  | cons sc rest ih =>
      intro idx k h1 h2
      by_cases hik : idx = k
      · subst hik
        simp [run_images_from, Nat.sub_self, List.range']
      · have hlt : idx < k := lt_of_le_of_ne h1 hik
        have hne : ¬ ((some k : Option ℕ) = some idx) := by
          simp
          omega
        simp only [run_images_from]
        rw [if_neg hne]
        rw [ih (idx + 1) k (by omega) (by simp at h2 ⊢; omega)]
        have hk : k - idx = (k - (idx + 1)) + 1 := by omega
        rw [hk, List.range']
        simp

/-- C4 counterexample: with the image collaborator failing on the third
section (of six), the pipeline aborts with no video, yet the two completed
sections' image files are still present in the final file state — cleanup
does not remove them, because they live under `output/images`, not under
the temp directory. -/
theorem C4_counterexample :
    (generate_video_run (fun _ => AIOutcome.unavailable) "2024-01-01"
        default_max_video_duration (some 2) false "gatos" "educational" 30
        []).2 = none ∧
    image_output_path "scene_0" ∈
      (generate_video_run (fun _ => AIOutcome.unavailable) "2024-01-01"
        default_max_video_duration (some 2) false "gatos" "educational" 30
        []).1 ∧
    image_output_path "scene_1" ∈
      (generate_video_run (fun _ => AIOutcome.unavailable) "2024-01-01"
        default_max_video_duration (some 2) false "gatos" "educational" 30
        []).1 := by
  refine ⟨by with_unfolding_all decide, by with_unfolding_all decide,
    by with_unfolding_all decide⟩

/-- C4 (amended): when the image stage fails on section `k` mid-pipeline,
the pipeline aborts returning no video path, the final file state is
exactly the cleanup of the initial files plus the `k` completed images
(so nothing new beyond those images exists — in particular no video file),
and cleanup leaves every completed image in place since it only removes
files under the temp directory. -/
theorem C4_abort_cleanup (outcome : String → AIOutcome)
    (now topic style : String) (d k : ℕ) (audio_fails : Bool)
    (files0 : List String)
    (hk : k < (get_template_structure style).length) :
    ((generate_video_run outcome now default_max_video_duration (some k)
        audio_fails topic style d files0).2 = none) ∧
    ((generate_video_run outcome now default_max_video_duration (some k)
        audio_fails topic style d files0).1 =
      cleanup_temp_files (files0 ++ (List.range k).map
        (fun i => image_output_path ("scene_" ++ toString i)))) ∧
    (∀ i, i < k → image_output_path ("scene_" ++ toString i) ∈
      (generate_video_run outcome now default_max_video_duration (some k)
        audio_fails topic style d files0).1) ∧
    (∀ p, p ∈ (generate_video_run outcome now default_max_video_duration
        (some k) audio_fails topic style d files0).1 →
      p ∈ files0 ∨ ∃ i, i < k ∧
        p = image_output_path ("scene_" ++ toString i)) := by
  have hlen : k < (generate_script outcome now topic style
      (effective_duration default_max_video_duration d)).scenes.length := by
    rw [generate_script_scenes_length]
    exact hk
  have hri : run_images (some k) (generate_script outcome now topic style
      (effective_duration default_max_video_duration d)).scenes =
      ((List.range k).map (fun i => image_output_path ("scene_" ++ toString i)),
       Except.error "Error al generar imagen") := by
    unfold run_images
    rw [run_images_from_fail _ 0 k (Nat.zero_le k) (by simpa using hlen)]
    rw [Nat.sub_zero, ← List.range_eq_range']
  have hmain : generate_video_run outcome now default_max_video_duration
      (some k) audio_fails topic style d files0 =
      (cleanup_temp_files (files0 ++ (List.range k).map
        (fun i => image_output_path ("scene_" ++ toString i))), none) := by
    simp only [generate_video_run, hri]
  refine ⟨by rw [hmain], by rw [hmain], ?_, ?_⟩
  · intro i hi
    rw [hmain]
    simp only [cleanup_temp_files, List.mem_filter]
    constructor
    · exact List.mem_append_right _
        (List.mem_map.mpr ⟨i, List.mem_range.mpr hi, rfl⟩)
    · simp [is_temp_file_image]
  · intro p hp
    rw [hmain] at hp
    simp only [cleanup_temp_files, List.mem_filter, List.mem_append,
      List.mem_map] at hp
    rcases hp.1 with h | ⟨i, hi, rfl⟩
    · exact Or.inl h
    · exact Or.inr ⟨i, List.mem_range.mp hi, rfl⟩

theorem C4_abort_cleanup_witness :
    2 < (get_template_structure "educational").length ∧
    (generate_video_run (fun _ => AIOutcome.unavailable) "now"
        default_max_video_duration (some 2) false "gatos" "educational" 30
        ["temp/partial.wav"]).2 = none ∧
    (generate_video_run (fun _ => AIOutcome.unavailable) "now"
        default_max_video_duration (some 2) false "gatos" "educational" 30
        ["temp/partial.wav"]).1 =
      cleanup_temp_files (["temp/partial.wav"] ++ (List.range 2).map
        (fun i => image_output_path ("scene_" ++ toString i))) := by
  have hk : 2 < (get_template_structure "educational").length := by decide
  have h := C4_abort_cleanup (fun _ => AIOutcome.unavailable) "now" "gatos"
    "educational" 30 2 false ["temp/partial.wav"] hk
  exact ⟨hk, h.1, h.2.1⟩
